import Mathlib

/-!
# Verification of the chat-your-data SQL workflow pipeline

Shallow embedding of the five-stage natural-language-to-SQL pipeline of
`src/workflow.py` and the chart renderer of `src/orchestrator.py`.

External effects (the LLM chain invocation and the warehouse query) are
modelled as explicit outcome parameters of type `Except`: `.ok v` is a
normal return of the external call and `.error e` is a raised exception
whose message is `e`.  A Python `raise` escaping a stage function is
modelled by the stage returning `Except.error`; a stage that cannot raise
is a total function into its update record.

pandas DataFrames are modelled by `DF` (column names plus rows of optional
cells; a `none` cell is a null/NaN).  `str(df)` / `df.to_string()` are
modelled by a concrete plain-text rendering `dfToString`; the exact pandas
layout is abstracted, but emptiness, row count and null-ness — the only
properties the pipeline branches on — are modelled exactly.
-/

namespace ChatYourData

/-- A pandas DataFrame: column names and rows of optional (nullable) cells. -/
structure DF where
  cols : List String
  rows : List (List (Option String))
deriving DecidableEq

/-- Pandas `df.empty`: true iff either axis has length zero. -/
def DF.empty (df : DF) : Bool :=
  df.rows.length == 0 || df.cols.length == 0

/-- Pandas `df.isnull().all().all()`: every cell is null; vacuously true
when there are no cells. -/
def DF.allNull (df : DF) : Bool :=
  df.rows.all (fun r => r.all (fun c => c.isNone))

/-- Pandas `df.head(n)`: the first `n` rows. -/
def DF.head (df : DF) (n : Nat) : DF :=
  { cols := df.cols, rows := df.rows.take n }

/-- Rendering of a null cell, as pandas prints it. -/
def cellToString : Option String → String
  | none => "NaN"
  | some s => s

/-- Concrete plain-text rendering of a DataFrame, modelling both `str(df)`
and `df.to_string()`: header line then one line per row. -/
def dfToString (df : DF) : String :=
  String.intercalate " " df.cols ++ "\n" ++
    String.intercalate "\n" (df.rows.map (fun r => String.intercalate " " (r.map cellToString)))

/-- The `result` field of the workflow state: a tagged union of a tabular
result and a plain string ("no results" / error messages). -/
inductive ResultVal where
  | table (df : DF)
  | str (s : String)
deriving DecidableEq

/-- Stringification `str(state["result"])` of the union. -/
def resultStr : ResultVal → String
  | .table df => dfToString df
  | .str s => s

/-- The `GraphState` TypedDict of `workflow.py`.  `has_results` is an
`Option Bool` because the Python dict may lack the key entirely
(`state.get("has_results", False)` in `should_continue_workflow`). -/
structure GraphState where
  tables : List String
  schema : String
  question : String
  query : String
  result : ResultVal
  answer : String
  explanation : String
  dataviz_code : String
  has_results : Option Bool
deriving DecidableEq

/-- A partial-state update as returned by one stage function: each field is
`some v` iff the returned Python dict contains that key.  One `Update`
value is one atomic dict return. -/
structure Update where
  query : Option String := none
  result : Option ResultVal := none
  has_results : Option Bool := none
  answer : Option String := none
  explanation : Option String := none
  dataviz_code : Option String := none
deriving DecidableEq

/-!
## `execute_query` (workflow.py lines 82–98)

The warehouse call `db.run_query(state["query"])` is the external outcome
parameter: `.ok df` when it returns a DataFrame, `.error e` when it raises.
`execute_query` itself is a total function: no exception escapes it.
-/

/-- Stage `execute_query`: branch on the returned table exactly as the source
does (`(not result_df.empty) and len(result_df) > 0 and not
result_df.isnull().all().all()`); on a raise from the store, catch and
degrade to an error-message string. -/
def execute_query (dbOutcome : Except String DF) : Update :=
  match dbOutcome with
  | .ok result_df =>
    if result_df.empty = false ∧ 0 < result_df.rows.length ∧ result_df.allNull = false then
      { result := some (.table result_df), has_results := some true }
    else
      { result := some (.str "Nenhum resultado encontrado."), has_results := some false }
  | .error e =>
    { result := some (.str ("Error executing query: " ++ e)), has_results := some false }

/-!
## `handle_no_results` (workflow.py lines 201–202)

A pure function of the state: the body is a constant f-string with no
interpolated field and no model call (the embedding takes no llm
parameter because the source makes no chain invocation).
-/

/-- Stage `handle_no_results`: returns the fixed no-results answer. -/
def handle_no_results (_state : GraphState) : Update :=
  { answer := some "A consulta SQL não retornou nenhum resultado." }

/-!
## The fork router and the compiled graph (workflow.py lines 205–247)
-/

/-- Router `should_continue_workflow`: `state.get("has_results", False)` is
`Option.getD · false` on the optional key. -/
def should_continue_workflow (state : GraphState) : String :=
  if state.has_results.getD false then "generate_answer" else "handle_no_results"

/-- The nodes of the LangGraph workflow, plus the `END` marker. -/
inductive Node where
  | write_query
  | execute_query
  | generate_answer
  | explain_answer
  | create_visualization
  | handle_no_results
  | END
deriving DecidableEq

/-- The conditional-edge mapping passed to `add_conditional_edges`:
route string → target node. -/
def routeTarget (s : String) : Option Node :=
  if s = "generate_answer" then some .generate_answer
  else if s = "handle_no_results" then some .handle_no_results
  else none

/-- The edges added in `create_sql_workflow`, read off the source: the
successor of each node given the state visible at routing time. -/
def nextNode (state : GraphState) : Node → Option Node
  | .write_query => some .execute_query
  | .execute_query => routeTarget (should_continue_workflow state)
  | .generate_answer => some .explain_answer
  | .explain_answer => some .create_visualization
  | .create_visualization => some .END
  | .handle_no_results => some .END
  | .END => none

/-- The node sequence executed from a given node, following the graph's
edges (fuel-bounded; the graph is acyclic with longest path length 6, so
fuel 8 is exact).  `state` is the state consulted by the conditional edge,
i.e. the state after `execute_query`'s update has been merged. -/
def traceFrom : Nat → GraphState → Node → List Node
  | 0, _, _ => []
  | n + 1, state, nd =>
    nd :: (match nextNode state nd with
           | none => []
           | some nd2 => traceFrom n state nd2)

/-- The fields of `GraphState` that stages write. -/
inductive Field where
  | query
  | result
  | has_results
  | answer
  | explanation
  | dataviz_code
deriving DecidableEq

/-- The set of state fields written by each node's returned update,
read off each stage function's return statements. -/
def writes : Node → List Field
  | .write_query => [.query]
  | .execute_query => [.result, .has_results]
  | .generate_answer => [.answer]
  | .explain_answer => [.explanation]
  | .create_visualization => [.dataviz_code]
  | .handle_no_results => [.answer]
  | .END => []

/-!
## Python string primitives

Used by the fenced-code-block stripping in `write_query` (lines 70-75) and
`create_visualization` (lines 188-195): `str.strip()` and
`str.replace(pat, "")`.
-/

/-- The backquote character (codepoint 96), written numerically. -/
def btChar : Char := Char.ofNat 96

/-- The three-backquote closing fence, the second `replace` pattern. -/
def bt3 : List Char := [btChar, btChar, btChar]

/-- The opening fence tag tested by `write_query`. -/
def fenceSql : List Char := "```sql".data

/-- The opening fence tag tested by `create_visualization`. -/
def fencePython : List Char := "```python".data

/-- Python `str.replace(pat, "")` on character lists: delete all
non-overlapping occurrences of `pat`, scanning left to right and resuming
after each deleted occurrence. -/
def removeAll (pat : List Char) : List Char → List Char
  | [] => []
  | c :: cs =>
    if pat ≠ [] ∧ pat <+: (c :: cs) then removeAll pat (cs.drop (pat.length - 1))
    else c :: removeAll pat cs
termination_by l => l.length
decreasing_by
  · simp only [List.length_drop, List.length_cons]
    omega
  · simp only [List.length_cons]
    omega

/-- Leading-whitespace strip (half of Python `str.strip()`). -/
def lstrip (l : List Char) : List Char := l.dropWhile Char.isWhitespace

/-- Trailing-whitespace strip (the other half of Python `str.strip()`). -/
def rstrip (l : List Char) : List Char := (l.reverse.dropWhile Char.isWhitespace).reverse

/-- Python `str.strip()` on character lists. -/
def pyStrip (l : List Char) : List Char := rstrip (lstrip l)

/-- Python `str.strip()` on strings (used for `answer.strip()` etc.). -/
def pyStripStr (s : String) : String := String.mk (pyStrip s.data)

/-- The fenced-code-block stripping common to `write_query` and
`create_visualization`: `s.strip()`; then, if the result starts with the
fence tag, `replace(tag, "").replace(closing-fence, "").strip()`. -/
def stripFence (fence : List Char) (l : List Char) : List Char :=
  if fence <+: pyStrip l then pyStrip (removeAll bt3 (removeAll fence (pyStrip l))) else pyStrip l

/-- The sql-fence stripping of `write_query` (lines 70-75). -/
def stripFenceSql (s : String) : String := String.mk (stripFence fenceSql s.data)

/-- The python-fence stripping of `create_visualization` (lines 188-195). -/
def stripFencePython (s : String) : String := String.mk (stripFence fencePython s.data)

/-- Number of leading backquotes of a character list (proof device). -/
def leadTicks : List Char → Nat
  | [] => 0
  | c :: cs => if c = btChar then leadTicks cs + 1 else 0

/-- Whether three consecutive backquotes occur anywhere (proof device). -/
def hasTriple : List Char → Bool
  | c1 :: c2 :: c3 :: cs =>
    (c1 == btChar && c2 == btChar && c3 == btChar) || hasTriple (c2 :: c3 :: cs)
  | _ => false

/-!
## `write_query` (workflow.py lines 47-79)

The chain invocation is the outcome parameter.  On success the model output
is stripped of a sql fence and returned as the `query` update.  On an
exception `e` from the chain, the source executes
`raise Exception({"query": f"-- Error generating query: {e}"})`: it raises,
with the error-marker dict as the exception payload; modelled as
`Except.error` carrying that payload. -/

/-- Stage `write_query`. -/
def write_query (llmOutcome : Except String String) (_state : GraphState) :
    Except Update Update :=
  match llmOutcome with
  | .ok query => .ok { query := some (stripFenceSql query) }
  | .error e => .error { query := some ("-- Error generating query: " ++ e) }

/-!
## `generate_answer` / `explain_answer` (workflow.py lines 101-159)
-/

/-- The truncation note plus first-100-rows rendering built by lines
112-113 / 142-143: `f"Resultado truncado (primeiras 100 linhas de
{len(state['result'])} total):\n{truncated_result}"`. -/
def truncNote (df : DF) : String :=
  "Resultado truncado (primeiras 100 linhas de " ++ toString df.rows.length ++
    " total):\n" ++ dfToString (df.head 100)

/-- Lines 110-115 / 140-145: the value embedded as `result` into the model
prompt.  When `str(result)` exceeds 10000 characters and the result is a
table, the first 100 rows plus the row-count note; the `.error` branch
models the AttributeError `.head(100)` raises on a plain string (caught by
the surrounding `except`). -/
def resultForLLM (res : ResultVal) : Except String String :=
  if (resultStr res).length > 10000 then
    match res with
    | .table df => .ok (truncNote df)
    | .str _ => .error "'str' object has no attribute 'head'"
  else
    .ok (resultStr res)

/-- Stage `generate_answer`: the prompt embeds `resultForLLM`; the model
outcome (parameter `llm`, applied to the embedded result) is stripped and
returned as the `answer` update; any exception degrades to an inline error
answer. -/
def generate_answer (llm : String → Except String String) (state : GraphState) : Update :=
  match resultForLLM state.result with
  | .ok result_for_llm =>
    match llm result_for_llm with
    | .ok answer => { answer := some (pyStripStr answer) }
    | .error e => { answer := some ("Error generating answer: " ++ e) }
  | .error e => { answer := some ("Error generating answer: " ++ e) }

/-- Stage `explain_answer`: same shape as `generate_answer`, writing only
`explanation`. -/
def explain_answer (llm : String → Except String String) (state : GraphState) : Update :=
  match resultForLLM state.result with
  | .ok result_for_llm =>
    match llm result_for_llm with
    | .ok explanation => { explanation := some (pyStripStr explanation) }
    | .error e => { explanation := some ("Error generating explanation: " ++ e) }
  | .error e => { explanation := some ("Error generating explanation: " ++ e) }

/-!
## `create_plot_figures` (orchestrator.py lines 19-46), success path

Figures are identifiers (`Nat`); the pyplot global figure stack is a list
of (figure number, figure) pairs.  Inputs: the stack before `exec`, the
`figs` list after `exec` and the stack after `exec`.  Outputs: the
returned `all_figs` list and the list of figures passed to `plt.close`.
`list(set(...))` is modelled by `List.dedup` (set semantics: order is
unspecified in the source, duplicates removed). -/

/-- The `current_figures` comprehension (line 35): figures on the final
stack whose figure NUMBER is at least the initial figure COUNT. -/
def currentFigures (initialStack finalStack : List (Nat × Nat)) : List Nat :=
  (finalStack.filter (fun p => decide (initialStack.length ≤ p.1))).map Prod.snd

/-- Chart renderer `create_plot_figures`: first component the returned
`all_figs`, second component the figures closed before returning. -/
def create_plot_figures (initialStack : List (Nat × Nat)) (figs : List Nat)
    (finalStack : List (Nat × Nat)) : List Nat × List Nat :=
  ((figs ++ currentFigures initialStack finalStack).dedup,
    currentFigures initialStack finalStack)

/-!
## Concrete inputs used by witnesses and counterexamples
-/

/-- A fresh per-question state as built by `initialize_state`. -/
def initState : GraphState :=
  { tables := [], schema := "", question := "", query := "", result := .str "",
    answer := "", explanation := "", dataviz_code := "", has_results := none }

/-- A 10100-character cell, pushing the rendering over the threshold. -/
def bigCell : String := String.mk (List.replicate 10100 'x')

/-- A one-column one-row table whose rendering exceeds 10000 characters. -/
def bigDF : DF := { cols := ["c"], rows := [[some bigCell]] }

/-- A state holding `bigDF` as its result. -/
def bigState : GraphState :=
  { tables := [], schema := "", question := "", query := "",
    result := .table bigDF, answer := "", explanation := "", dataviz_code := "",
    has_results := some true }

/-- A constant model outcome. -/
def llmConst : String → Except String String := fun _ => Except.ok "ok"

end ChatYourData


namespace ChatYourData

/-- C3: for every raising warehouse call, `execute_query` returns (total
function, no propagation) the update setting `has_results := false` and
`result` to a string that contains the literal substring
"Error executing query". -/
theorem execute_query_catches_errors (e : String) :
    execute_query (Except.error e) =
      { result := some (.str ("Error executing query: " ++ e)), has_results := some false } ∧
    ∃ t : List Char, ("Error executing query: " ++ e).data =
      "Error executing query".data ++ t :=
  ⟨rfl, ⟨": ".data ++ e.data, by
    have h1 : ("Error executing query: " ++ e).data =
        "Error executing query: ".data ++ e.data := rfl
    have h2 : "Error executing query: ".data =
        "Error executing query".data ++ ": ".data := rfl
    rw [h1, h2, List.append_assoc]⟩⟩

/-- C2: on a non-raising warehouse call returning a well-formed table,
`execute_query` returns — in one atomic update — `has_results := true` and
`result` = the table when the table has at least one row and is not
entirely null, and `has_results := false` with the canned no-results
message when it has zero rows or is entirely null. -/
theorem execute_query_partitions_results (df : DF)
    (hwf : ∀ r ∈ df.rows, r.length = df.cols.length) :
    (0 < df.rows.length ∧ df.allNull = false →
      execute_query (Except.ok df) =
        { result := some (.table df), has_results := some true }) ∧
    (df.rows.length = 0 ∨ df.allNull = true →
      execute_query (Except.ok df) =
        { result := some (.str "Nenhum resultado encontrado."), has_results := some false }) := by
  constructor
  · rintro ⟨hpos, hnull⟩
    obtain ⟨r, hr, hrx⟩ : ∃ r ∈ df.rows, ¬ (r.all fun c => c.isNone) := by
      rw [← List.all_eq_false]
      exact hnull
    obtain ⟨c, hc, -⟩ : ∃ c ∈ r, ¬ c.isNone := by
      rw [← List.all_eq_false]
      exact Bool.eq_false_iff.mpr hrx
    have hrne : r ≠ [] := by
      rintro rfl
      exact absurd hc (List.not_mem_nil c)
    have hrlen : 0 < r.length := List.length_pos.mpr hrne
    have hclen := hwf r hr
    have hempty : df.empty = false := by
      simp only [DF.empty, Bool.or_eq_false_iff, beq_eq_false_iff_ne, ne_eq]
      omega
    simp [execute_query, hempty, hpos, hnull]
  · intro h
    rcases h with h0 | hall
    · have hempty : df.empty = true := by
        simp [DF.empty, h0]
      simp [execute_query, hempty]
    · simp [execute_query, hall]

/-- Witness for `execute_query_partitions_results`: a one-cell non-null
table takes the results branch; a zero-row table takes the no-results
branch. -/
theorem execute_query_partitions_results_witness :
    execute_query (Except.ok ⟨["a"], [[some "1"]]⟩) =
      { result := some (.table ⟨["a"], [[some "1"]]⟩), has_results := some true } ∧
    execute_query (Except.ok ⟨["a"], []⟩) =
      { result := some (.str "Nenhum resultado encontrado."), has_results := some false } :=
  ⟨(execute_query_partitions_results ⟨["a"], [[some "1"]]⟩ (by decide)).1 (by decide),
   (execute_query_partitions_results ⟨["a"], []⟩ (by decide)).2 (by decide)⟩

/-- C5: `handle_no_results` returns the same fixed update on every state
(it reads no field and, structurally, makes no model call), and its
answer string contains the phrase "não retornou nenhum resultado". -/
theorem handle_no_results_constant (s s' : GraphState) :
    handle_no_results s = handle_no_results s' ∧
    handle_no_results s = { answer := some "A consulta SQL não retornou nenhum resultado." } ∧
    ∃ pre post : String,
      "A consulta SQL não retornou nenhum resultado." =
        pre ++ "não retornou nenhum resultado" ++ post :=
  ⟨rfl, rfl, ⟨"A consulta SQL ", ".", rfl⟩⟩

/-- C10: the router treats a missing `has_results` key exactly like
`false`: the route is `generate_answer` iff the key is present and true,
and `handle_no_results` otherwise (in particular when the key is absent). -/
theorem router_defaults_missing_flag_to_false (s : GraphState) :
    should_continue_workflow s =
      (if s.has_results = some true then "generate_answer" else "handle_no_results") ∧
    nextNode s .execute_query =
      some (if s.has_results = some true then .generate_answer else .handle_no_results) := by
  rcases h : s.has_results with _ | b
  · simp [should_continue_workflow, nextNode, routeTarget, h]
  · cases b <;> simp [should_continue_workflow, nextNode, routeTarget, h]

/-- C4: after `execute_query` the pipeline branches exactly once on
`has_results` (as left by the executor's update): when true it runs
`generate_answer`, `explain_answer`, `create_visualization` in that order
and terminates; when false (or absent) it runs only `handle_no_results`
and terminates. -/
theorem fork_after_execute (s : GraphState) :
    traceFrom 8 s .execute_query =
      (if s.has_results.getD false then
        [.execute_query, .generate_answer, .explain_answer, .create_visualization, .END]
      else
        [.execute_query, .handle_no_results, .END]) := by
  rcases h : s.has_results.getD false <;>
    simp [traceFrom, nextNode, should_continue_workflow, routeTarget, h]

/-- C8: along any executed path of the compiled graph (from the entry
point, whichever branch the router takes) the fields written by the
visited stages are pairwise distinct: no field is written twice in one
run.  In particular the two writers of `answer` (`generate_answer` and
`handle_no_results`) never occur in the same trace. -/
theorem fields_append_only (s : GraphState) :
    ((traceFrom 8 s .write_query).flatMap writes).Nodup := by
  rcases h : s.has_results.getD false <;>
    simp [traceFrom, nextNode, should_continue_workflow, routeTarget, h, writes]

/-!
## Properties of the stripping primitives
-/

/-- Sanity: `bt3` is the three-backquote string of the source literals. -/
theorem bt3_models_fence : String.mk bt3 = "```" := by decide

/-- Sanity: the sql and python fence tags begin with the closing fence. -/
theorem fences_begin_with_bt3 : bt3 <+: fenceSql ∧ bt3 <+: fencePython := by decide

theorem hasTriple_cons3 (c1 c2 c3 : Char) (cs : List Char) :
    hasTriple (c1 :: c2 :: c3 :: cs) =
      ((c1 == btChar && c2 == btChar && c3 == btChar) || hasTriple (c2 :: c3 :: cs)) := rfl

theorem leadTicks_le_one (cs : List Char) (h : ¬ ([btChar, btChar] <+: cs)) :
    leadTicks cs ≤ 1 := by
  rcases cs with _ | ⟨d, ds⟩
  · simp [leadTicks]
  · rcases ds with _ | ⟨e, es⟩
    · by_cases hd : d = btChar <;> simp [leadTicks, hd]
    · by_cases hd : d = btChar
      · by_cases he : e = btChar
        · exact absurd ⟨es, by rw [hd, he]; rfl⟩ h
        · simp [leadTicks, hd, he]
      · simp [leadTicks, hd]

theorem and3_false_of_ne (c x2 x3 : Char) (h : ¬ (c = btChar ∧ x2 = btChar ∧ x3 = btChar)) :
    (c == btChar && x2 == btChar && x3 == btChar) = false := by
  by_cases hc : c = btChar
  · by_cases h2 : x2 = btChar
    · by_cases h3 : x3 = btChar
      · exact absurd ⟨hc, h2, h3⟩ h
      · simp [h3]
    · simp [h2]
  · simp [hc]

/-- The leading-backquote count of `replace(closing-fence, "")`'s output is
the input's count modulo 3 (the scan consumes whole leading triples). -/
theorem leadTicks_removeAll (l : List Char) :
    leadTicks (removeAll bt3 l) = leadTicks l % 3 := by
  induction l using removeAll.induct
  case pat => exact bt3
  case case1 => simp [removeAll, leadTicks]
  case case2 c cs h ih =>
    rw [removeAll, if_pos h]
    obtain ⟨t, ht⟩ := h.2
    have ht' : btChar :: btChar :: btChar :: t = c :: cs := ht
    injection ht' with h1 h2
    subst h1
    subst h2
    have ih' : leadTicks (removeAll bt3 t) = leadTicks t % 3 := ih
    show leadTicks (removeAll bt3 t) = leadTicks (btChar :: btChar :: btChar :: t) % 3
    rw [ih']
    have e : leadTicks (btChar :: btChar :: btChar :: t) = leadTicks t + 1 + 1 + 1 := by
      simp [leadTicks]
    rw [e]
    omega
  case case3 c cs h ih =>
    rw [removeAll, if_neg h]
    have hns : ¬ (bt3 <+: c :: cs) := fun hcon => h ⟨by simp [bt3], hcon⟩
    by_cases hc : c = btChar
    · subst hc
      have h2 : ¬ ([btChar, btChar] <+: cs) := by
        rintro ⟨t, ht⟩
        exact hns ⟨t, by rw [← ht]; rfl⟩
      have hle := leadTicks_le_one cs h2
      have e1 : leadTicks (btChar :: removeAll bt3 cs) = leadTicks (removeAll bt3 cs) + 1 := by
        simp [leadTicks]
      have e2 : leadTicks (btChar :: cs) = leadTicks cs + 1 := by
        simp [leadTicks]
      rw [e1, e2, ih]
      omega
    · simp [leadTicks, hc]

/-- The output of `replace(closing-fence, "")` never contains three
consecutive backquotes. -/
theorem hasTriple_removeAll (l : List Char) :
    hasTriple (removeAll bt3 l) = false := by
  induction l using removeAll.induct
  case pat => exact bt3
  case case1 => simp [removeAll, hasTriple]
  case case2 c cs h ih =>
    rw [removeAll, if_pos h]
    exact ih
  case case3 c cs h ih =>
    rw [removeAll, if_neg h]
    have hns : ¬ (bt3 <+: c :: cs) := fun hcon => h ⟨by simp [bt3], hcon⟩
    rcases X : removeAll bt3 cs with _ | ⟨x2, X2⟩
    · simp [hasTriple]
    · rcases X2 with _ | ⟨x3, X3⟩
      · simp [hasTriple]
      · rw [X] at ih
        rw [hasTriple_cons3, ih, Bool.or_false]
        apply and3_false_of_ne
        rintro ⟨hc, hx2, hx3⟩
        have h2 : ¬ ([btChar, btChar] <+: cs) := by
          rintro ⟨t, ht⟩
          exact hns ⟨t, by rw [hc, ← ht]; rfl⟩
        have hle := leadTicks_le_one cs h2
        have hlr := leadTicks_removeAll cs
        rw [X] at hlr
        have e : leadTicks (x2 :: x3 :: X3) = leadTicks X3 + 1 + 1 := by
          rw [hx2, hx3]
          simp [leadTicks]
        omega

theorem hasTriple_cons_of (c : Char) (X : List Char) (h : hasTriple X = true) :
    hasTriple (c :: X) = true := by
  rcases X with _ | ⟨x2, X2⟩
  · simp [hasTriple] at h
  · rcases X2 with _ | ⟨x3, X3⟩
    · simp [hasTriple] at h
    · rw [hasTriple_cons3, h, Bool.or_true]

theorem hasTriple_append_left (s t : List Char) (h : hasTriple t = true) :
    hasTriple (s ++ t) = true := by
  induction s with
  | nil => simpa
  | cons c cs ih => exact hasTriple_cons_of c (cs ++ t) ih

theorem hasTriple_append_right (s t : List Char) (h : hasTriple s = true) :
    hasTriple (s ++ t) = true := by
  induction s with
  | nil => simp [hasTriple] at h
  | cons c cs ih =>
    rcases cs with _ | ⟨c2, cs2⟩
    · simp [hasTriple] at h
    · rcases cs2 with _ | ⟨c3, cs3⟩
      · simp [hasTriple] at h
      · rw [hasTriple_cons3] at h
        by_cases h1 : (c == btChar && c2 == btChar && c3 == btChar) = true
        · rw [List.cons_append, List.cons_append, List.cons_append, hasTriple_cons3]
          rw [h1, Bool.true_or]
        · rw [Bool.eq_false_iff.mpr h1, Bool.false_or] at h
          exact hasTriple_cons_of c ((c2 :: c3 :: cs3) ++ t) (ih h)

/-- Backquote triples survive being embedded in a larger list. -/
theorem hasTriple_mono (y x : List Char) (hinf : y <:+: x) (h : hasTriple y = true) :
    hasTriple x = true := by
  obtain ⟨s, t, rfl⟩ := hinf
  rw [List.append_assoc]
  exact hasTriple_append_left s (y ++ t) (hasTriple_append_right y t h)

theorem bt3_prefix_hasTriple (z : List Char) (h : bt3 <+: z) : hasTriple z = true := by
  obtain ⟨t, ht⟩ := h
  have ht' : btChar :: btChar :: btChar :: t = z := ht
  rw [← ht', hasTriple_cons3]
  simp

theorem dropWhile_head_not (p : Char → Bool) (l : List Char) (c : Char) (t : List Char)
    (h : l.dropWhile p = c :: t) : p c = false := by
  induction l with
  | nil => simp [List.dropWhile] at h
  | cons a as ih =>
    rw [List.dropWhile_cons] at h
    by_cases hp : p a
    · rw [if_pos hp] at h
      exact ih h
    · rw [if_neg hp] at h
      injection h with h1 _
      rw [← h1]
      exact Bool.eq_false_iff.mpr hp

theorem dropWhile_idem (p : Char → Bool) (l : List Char) :
    (l.dropWhile p).dropWhile p = l.dropWhile p := by
  rcases h : l.dropWhile p with _ | ⟨c, t⟩
  · simp
  · rw [List.dropWhile_cons, dropWhile_head_not p l c t h]
    simp

theorem rstrip_idem (l : List Char) : rstrip (rstrip l) = rstrip l := by
  simp [rstrip, List.reverse_reverse, dropWhile_idem]

theorem rstrip_prefix_self (l : List Char) : rstrip l <+: l := by
  rw [← List.reverse_suffix, rstrip, List.reverse_reverse]
  exact List.dropWhile_suffix _

/-- `strip()` returns a contiguous slice of its input. -/
theorem pyStrip_infix_self (l : List Char) : pyStrip l <:+: l :=
  List.IsInfix.trans (rstrip_prefix_self (lstrip l)).isInfix (List.dropWhile_suffix _).isInfix

theorem lstrip_rstrip_lstrip (l : List Char) :
    lstrip (rstrip (lstrip l)) = rstrip (lstrip l) := by
  rcases h : rstrip (lstrip l) with _ | ⟨c, t⟩
  · simp [lstrip]
  · have hpre : rstrip (lstrip l) <+: lstrip l := rstrip_prefix_self (lstrip l)
    rw [h] at hpre
    obtain ⟨t2, ht2⟩ := hpre
    have hc : Char.isWhitespace c = false := by
      refine dropWhile_head_not Char.isWhitespace l c (t ++ t2) ?_
      rw [show c :: (t ++ t2) = (c :: t) ++ t2 from rfl, ht2]
      rfl
    rw [lstrip, List.dropWhile_cons, hc]
    simp

/-- `strip()` is idempotent. -/
theorem pyStrip_idem (l : List Char) : pyStrip (pyStrip l) = pyStrip l := by
  show rstrip (lstrip (rstrip (lstrip l))) = rstrip (lstrip l)
  rw [lstrip_rstrip_lstrip, rstrip_idem]

/-- Idempotence of the fence stripping, for any fence tag that begins with
the three-backquote closing fence. -/
theorem stripFence_idem (fence : List Char) (hf : bt3 <+: fence) (l : List Char) :
    stripFence fence (stripFence fence l) = stripFence fence l := by
  by_cases h : fence <+: pyStrip l
  · have hmain : stripFence fence l = pyStrip (removeAll bt3 (removeAll fence (pyStrip l))) := by
      simp only [stripFence, if_pos h]
    rw [hmain]
    have hps : pyStrip (pyStrip (removeAll bt3 (removeAll fence (pyStrip l)))) =
        pyStrip (removeAll bt3 (removeAll fence (pyStrip l))) := pyStrip_idem _
    have hnf : ¬ (fence <+: pyStrip (pyStrip (removeAll bt3 (removeAll fence (pyStrip l))))) := by
      rw [hps]
      intro hcon
      have h3 : bt3 <+: pyStrip (removeAll bt3 (removeAll fence (pyStrip l))) :=
        List.IsPrefix.trans hf hcon
      have ht : hasTriple (pyStrip (removeAll bt3 (removeAll fence (pyStrip l)))) = true :=
        bt3_prefix_hasTriple _ h3
      have htz : hasTriple (removeAll bt3 (removeAll fence (pyStrip l))) = true :=
        hasTriple_mono _ _ (pyStrip_infix_self _) ht
      rw [hasTriple_removeAll] at htz
      exact Bool.false_ne_true htz
    rw [hps] at hnf
    simp only [stripFence, hps]
    rw [if_neg hnf]
  · have hmain : stripFence fence l = pyStrip l := by
      simp only [stripFence, if_neg h]
    rw [hmain]
    simp only [stripFence, pyStrip_idem]
    rw [if_neg h]

/-!
## Claim theorems (continued)
-/

/-- C6: the fenced-code-block stripping applied in `write_query` (sql
fences) and `create_visualization` (python fences) is idempotent: applying
the transformation to the output of a previous application returns that
output unchanged. -/
theorem fence_stripping_idempotent (s : String) :
    stripFenceSql (stripFenceSql s) = stripFenceSql s ∧
    stripFencePython (stripFencePython s) = stripFencePython s := by
  constructor
  · show String.mk (stripFence fenceSql (String.mk (stripFence fenceSql s.data)).data) = _
    rw [show (String.mk (stripFence fenceSql s.data)).data = stripFence fenceSql s.data from rfl]
    rw [stripFence_idem fenceSql (by decide) s.data]
    rfl
  · show String.mk (stripFence fencePython (String.mk (stripFence fencePython s.data)).data) = _
    rw [show (String.mk (stripFence fencePython s.data)).data =
      stripFence fencePython s.data from rfl]
    rw [stripFence_idem fencePython (by decide) s.data]
    rfl

/-- C1 (code-bug evidence): when the model chain raises, `write_query` does
not return the error-marker update: it raises in turn (the source line is
`raise Exception({"query": f"-- Error generating query: {e}"})`, modelled
as `Except.error` with the dict payload), so no `query` value flows into
`execute_query`.  The spec's claimed behaviour would be the `.ok` result,
which this evaluation shows is never produced on the error path. -/
theorem write_query_raises_on_llm_error :
    write_query (Except.error "boom") initState =
      Except.error { query := some "-- Error generating query: boom" } := rfl

/-- C7: when `str(result)` exceeds 10000 characters and the result is a
table, `generate_answer` and `explain_answer` embed into the model prompt
exactly the first 100 rows preceded by a note of the original row count;
and each stage's single returned update sets only its own field (`answer`
resp. `explanation`) — in particular `result` and `has_results` are left
untouched for downstream stages. -/
theorem truncation_and_frame (df : DF) (st : GraphState)
    (llmA llmE : String → Except String String)
    (hres : st.result = ResultVal.table df)
    (hlen : (resultStr st.result).length > 10000) :
    resultForLLM st.result = Except.ok (truncNote df) ∧
    (∃ a, generate_answer llmA st = { answer := some a }) ∧
    (∃ x, explain_answer llmE st = { explanation := some x }) := by
  rw [hres] at hlen
  have h1 : resultForLLM (ResultVal.table df) = Except.ok (truncNote df) := by
    simp only [resultForLLM]
    rw [if_pos hlen]
  refine ⟨by rw [hres]; exact h1, ?_, ?_⟩
  · simp only [generate_answer, hres, h1]
    cases hc : llmA (truncNote df) with
    | ok a => exact ⟨pyStripStr a, rfl⟩
    | error e => exact ⟨"Error generating answer: " ++ e, rfl⟩
  · simp only [explain_answer, hres, h1]
    cases hc : llmE (truncNote df) with
    | ok x => exact ⟨pyStripStr x, rfl⟩
    | error e => exact ⟨"Error generating explanation: " ++ e, rfl⟩

/-- Witness for `truncation_and_frame` at the concrete over-threshold
table `bigDF`. -/
theorem truncation_and_frame_witness :
    resultForLLM bigState.result = Except.ok (truncNote bigDF) ∧
    (∃ a, generate_answer llmConst bigState = { answer := some a }) ∧
    (∃ x, explain_answer llmConst bigState = { explanation := some x }) :=
  truncation_and_frame bigDF bigState llmConst llmConst rfl (by
    have h0 : resultStr bigState.result = "c" ++ "\n" ++ bigCell := rfl
    rw [h0, String.length_append, String.length_append]
    have h1 : bigCell.length = 10100 := by
      rw [show bigCell.length = (List.replicate 10100 'x').length from rfl]
      rw [List.length_replicate]
    rw [h1]
    decide)

/-- C9 counterexample: run the renderer on an execution that appended one
figure (id 7) to `figs` without ever putting it on the pyplot stack: the
figure is in the returned list but the closed list is empty, refuting
"every figure in that returned list has been closed". -/
theorem create_plot_figures_returns_unclosed :
    (create_plot_figures [] [7] []).1 = [7] ∧
    7 ∈ (create_plot_figures [] [7] []).1 ∧
    (create_plot_figures [] [7] []).2 = [] := by
  refine ⟨by decide, by decide, by decide⟩

/-- C9 amended: the returned list is the deduplication of `figs` plus the
stack-collected `current_figures` (so it contains every produced figure
and has no duplicates), and the figures closed before returning are
exactly `current_figures` — figures only appended to `figs` are returned
without being closed. -/
theorem create_plot_figures_amended (initialStack : List (Nat × Nat)) (figs : List Nat)
    (finalStack : List (Nat × Nat)) :
    (create_plot_figures initialStack figs finalStack).1 =
      (figs ++ currentFigures initialStack finalStack).dedup ∧
    (create_plot_figures initialStack figs finalStack).1.Nodup ∧
    (∀ f, f ∈ figs ++ currentFigures initialStack finalStack →
      f ∈ (create_plot_figures initialStack figs finalStack).1) ∧
    (create_plot_figures initialStack figs finalStack).2 =
      currentFigures initialStack finalStack :=
  ⟨rfl, List.nodup_dedup _, fun _ hf => List.mem_dedup.mpr hf, rfl⟩

/-- Witness for `create_plot_figures_amended` at a concrete execution with
one pre-existing stack figure, a duplicated `figs` entry and one new stack
figure. -/
theorem create_plot_figures_amended_witness :
    (create_plot_figures [(0, 5)] [7, 7] [(0, 5), (1, 6)]).1.Nodup ∧
    7 ∈ (create_plot_figures [(0, 5)] [7, 7] [(0, 5), (1, 6)]).1 :=
  ⟨(create_plot_figures_amended [(0, 5)] [7, 7] [(0, 5), (1, 6)]).2.1,
   (create_plot_figures_amended [(0, 5)] [7, 7] [(0, 5), (1, 6)]).2.2.1 7 (by decide)⟩

end ChatYourData

